import Mathlib

/-!
Verification development for the anysocks WebSocket client
(src/anysocks/client.py), a shallow embedding of the module in Lean 4.

The embedding follows the source line by line:
* the exception classes defined by the module and the Python builtins it
  interacts with, with their subclass relation;
* `open_websocket` (lines 62-135): the connect phase wrapped in
  `anyio.fail_after(connect_timeout)` with its two except clauses, and the
  close attempt in the `finally` block wrapped in
  `anyio.fail_after(disconnect_timeout)`;
* `create_websocket` (lines 138-212): URL validation via `_url_to_host`,
  the `use_ssl` dispatch, the binding of `stream` (line 198, which does
  not await `anyio.connect_tcp`), and the Host header composition
  (lines 199-202);
* the module top level (imports and def statements), to track which
  global names are bound when each def statement and its annotated
  signature is evaluated;
* the background reader task and the close operation of
  `WebSocketConnection` are absent from the source (the class body is a
  stub); those parts are modelled from the spec, as marked on each
  definition.

Python semantics that the embedding makes explicit:
* `anyio.fail_after` raises the BUILTIN `TimeoutError` (a subclass of
  `OSError`) when the deadline expires, while the module defines its own
  `TimeoutError(AnysocksError)` that shadows the builtin name inside the
  module, so `except TimeoutError` in the module matches only the
  module class;
* an exception raised inside a `finally` block replaces the in-flight
  exception;
* default values and annotations of a `def` statement are evaluated when
  the `def` statement itself executes, so an undefined name in an
  annotation raises `NameError` at import time.
-/

/-! ## Exception classes -/

/-- Exception classes relevant to the module: the three classes the module
defines (lines 43-59), the builtins they interact with, and `NameError`
for import-time failures. `builtinTimeoutError` is the Python builtin
`TimeoutError`, a subclass of `OSError`; `timeoutError` is the module
class `anysocks.client.TimeoutError`, a subclass of `AnysocksError`. -/
inductive ExcClass where
  | exception
  | osError
  | builtinTimeoutError
  | anysocksError
  | handshakeError
  | timeoutError
  | valueError
  | typeError
  | nameError
  deriving DecidableEq, Repr

/-- Direct superclass of each exception class, per the source
(lines 43-59) and the Python builtin hierarchy. -/
def ExcClass.parent : ExcClass → Option ExcClass
  | .exception => none
  | .osError => some .exception
  | .builtinTimeoutError => some .osError
  | .anysocksError => some .exception
  | .handshakeError => some .anysocksError
  | .timeoutError => some .anysocksError
  | .valueError => some .exception
  | .typeError => some .exception
  | .nameError => some .exception

/-- Bounded walk up the superclass chain. -/
def ExcClass.isSubclassAux : Nat → ExcClass → ExcClass → Bool
  | 0, _, _ => false
  | n + 1, a, b =>
    a = b ||
      match a.parent with
      | some p => ExcClass.isSubclassAux n p b
      | none => false

/-- `a.isSubclass b` holds when an `except b` clause catches an instance
of `a` (reflexive-transitive closure of `parent`; the hierarchy has
depth at most 3). -/
def ExcClass.isSubclass (a b : ExcClass) : Bool :=
  ExcClass.isSubclassAux 4 a b

/-! ## open_websocket: connect phase and close phase -/

/-- Outcome of the code executed inside one `anyio.fail_after` block:
either it completes, or some exception class is raised out of the block.
A deadline expiry is `raises ExcClass.builtinTimeoutError`, because
`anyio.fail_after` raises the builtin `TimeoutError`. -/
inductive PhaseResult where
  | ok
  | raises (e : ExcClass)
  deriving DecidableEq, Repr

/-- Connect phase of `open_websocket` (lines 117-126): run
`create_websocket` under `anyio.fail_after(connect_timeout)`;
`except TimeoutError: raise TimeoutError from None` (the module class,
which shadows the builtin); `except OSError as e: raise HandshakeError
from e`. -/
def connectPhase : PhaseResult → Except ExcClass Unit
  | .ok => Except.ok ()
  | .raises e =>
    if e.isSubclass .timeoutError then Except.error .timeoutError
    else if e.isSubclass .osError then Except.error .handshakeError
    else Except.error e

/-- Close attempt in the `finally` block of `open_websocket`
(lines 131-135): `await websocket.close()` under
`anyio.fail_after(disconnect_timeout)`, then
`except TimeoutError: raise TimeoutError from None` (again the module
class). Returns the exception that escapes the `finally` body, if any. -/
def closePhase : PhaseResult → Option ExcClass
  | .ok => none
  | .raises e =>
    if e.isSubclass .timeoutError then some .timeoutError
    else some e

/-- Exit path of the `open_websocket` context manager (lines 128-135):
the caller body may be propagating `bodyExc`; the `finally` block runs
the close attempt; by Python semantics an exception raised inside
`finally` replaces the in-flight one. -/
def open_websocket_exit (bodyExc : Option ExcClass) (close : PhaseResult) :
    Option ExcClass :=
  match closePhase close with
  | some f => some f
  | none => bodyExc

/-! ## URL validation and create_websocket -/

/-- The value passed as `use_ssl` / `ssl_context`: Python `None`, a
`bool`, an `ssl.SSLContext` instance, or any other object. -/
inductive UseSsl where
  | none
  | bool (b : Bool)
  | sslContext
  | other
  deriving DecidableEq, Repr

/-- A parsed URL as `yarl.URL` exposes it to `_url_to_host`: `port` is
the explicit port of the URL or, when absent, the default port of the
scheme (80 for ws, 443 for wss), which is what `yarl.URL.port`
returns. -/
structure Url where
  scheme : String
  host : String
  port : Nat
  path_qs : String
  deriving DecidableEq, Repr

/-- `_url_to_host` (lines 215-225): reject a scheme other than ws/wss
with `ValueError`; when `ssl_context is None`, replace it by the bool
`scheme == "wss"`; otherwise reject a ws scheme with `ValueError`;
return `(host, port, path_qs, ssl_context)`. -/
def _url_to_host (url : Url) (ssl_context : UseSsl) :
    Except ExcClass (String × Nat × String × UseSsl) :=
  if url.scheme ≠ "ws" ∧ url.scheme ≠ "wss" then
    Except.error .valueError
  else
    match ssl_context with
    | .none => Except.ok (url.host, url.port, url.path_qs, .bool (url.scheme == "wss"))
    | s =>
      if url.scheme = "ws" then Except.error .valueError
      else Except.ok (url.host, url.port, url.path_qs, s)

/-- Host header composition (lines 199-202): `if port in (80, 443)` use
the bare host, else `host:port`. -/
def host_header (host : String) (port : Nat) : String :=
  if port = 80 ∨ port = 443 then host
  else host ++ ":" ++ toString port

/-- Host header rule as the spec words it (section 6): bare host exactly
when the port is the default port of the scheme in use. Written from the
spec, for comparison with `host_header` from the source. -/
def defaultPort (scheme : String) : Nat :=
  if scheme = "wss" then 443 else 80

/-- Spec-side Host header (section 6), for refinement comparison only. -/
def host_header_spec (scheme host : String) (port : Nat) : String :=
  if port = defaultPort scheme then host
  else host ++ ":" ++ toString port

/-- An SSL context value as resolved by lines 186-193. -/
inductive SslCtx where
  | defaultContext
  | callerContext
  deriving DecidableEq, Repr

/-- An async call whose coroutine object can be stored unawaited. -/
inductive AsyncCall where
  | connectTcp (host : String) (port : Nat) (tls : Bool)
  deriving DecidableEq, Repr

/-- A Python value as far as the `stream` binding is concerned: a
coroutine object produced by calling an async function without awaiting
it, or a connected byte stream produced by awaiting the call. -/
inductive PyVal where
  | vNone
  | coroutine (c : AsyncCall)
  | connectedStream
  deriving DecidableEq, Repr

/-- Awaiting a value: awaiting a coroutine runs the call (a
`connect_tcp` coroutine yields a connected stream). The source never
applies this to the `stream` binding. -/
def awaitVal : PyVal → Option PyVal
  | .coroutine (.connectTcp _ _ _) => some .connectedStream
  | _ => none

/-- A network side effect actually performed. -/
inductive NetEffect where
  | connect (host : String) (port : Nat) (tls : Bool)
  deriving DecidableEq, Repr

/-- The arguments `create_websocket` passes to the `WebSocketConnection`
constructor (lines 205-208) that the claims inspect. -/
structure WebSocketConnectionArgs where
  stream : PyVal
  host : String
  path : String
  deriving DecidableEq, Repr

/-- `create_websocket` (lines 184-212) up to constructing the
connection: `_url_to_host`, the `use_ssl` dispatch (`is True` /
`is False` / `isinstance SSLContext` / `TypeError`), the `stream`
binding of line 198 — which calls `anyio.connect_tcp` WITHOUT `await`,
so the bound value is the coroutine object and no network connect is
performed — and the Host header. The second component is the list of
network effects performed, in order. -/
def create_websocket (url : Url) (use_ssl : UseSsl) :
    Except ExcClass WebSocketConnectionArgs × List NetEffect :=
  match _url_to_host url use_ssl with
  | .error e => (Except.error e, [])
  | .ok (host, port, resource, use_ssl2) =>
    let ssl_context : Except ExcClass (Option SslCtx) :=
      match use_ssl2 with
      | .bool true => Except.ok (some .defaultContext)
      | .bool false => Except.ok Option.none
      | .sslContext => Except.ok (some .callerContext)
      | _ => Except.error .typeError
    match ssl_context with
    | .error e => (Except.error e, [])
    | .ok ctx =>
      let tls := ctx.isSome
      let stream := PyVal.coroutine (.connectTcp host port tls)
      (Except.ok { stream := stream, host := host_header host port, path := resource }, [])

/-- The invalid configurations named by the spec (section 7) and claim
C7, restricted to values other than Python `None` (which the code
accepts and resolves from the scheme): bad scheme, an SSL context for a
plaintext URL, or a `use_ssl` value that is neither `None`, a bool, nor
an SSL context. -/
def invalidConfig (url : Url) (use_ssl : UseSsl) : Prop :=
  (url.scheme ≠ "ws" ∧ url.scheme ≠ "wss") ∨
  (url.scheme = "ws" ∧ use_ssl = .sslContext) ∨
  use_ssl = .other

instance (url : Url) (use_ssl : UseSsl) : Decidable (invalidConfig url use_ssl) := by
  unfold invalidConfig
  infer_instance

/-- Example ws URL. -/
def exampleWs : Url := { scheme := "ws", host := "example.com", port := 80, path_qs := "/" }

/-- Example wss URL. -/
def exampleWss : Url := { scheme := "wss", host := "example.com", port := 443, path_qs := "/" }

/-- The connection arguments `create_websocket exampleWss UseSsl.none`
produces (used as a concrete evaluation point). -/
def cwExampleArgs : WebSocketConnectionArgs :=
  { stream := PyVal.coroutine (.connectTcp "example.com" 443 true),
    host := "example.com", path := "/" }

/-! ## Module top level

Python evaluates a module top to bottom; a `def` statement evaluates its
default values and its annotated signature at that moment, so every name
they mention must already be bound in the module globals or be a
builtin, else the import raises `NameError`. Attribute access on an
imported module (such as `anyio.TaskGroup`) is not modelled; only base
names are resolved. -/

/-- A top-level statement of the module: `bind n` binds the global `n`
(import, assignment, or class statement); `defStmt n used` is a `def`
statement that first resolves the names `used` (default values, then
annotations, then the decorator) and then binds `n`. -/
inductive PyStmt where
  | bind (name : String)
  | defStmt (name : String) (used : List String)
  deriving DecidableEq, Repr

/-- The global name a statement binds. -/
def PyStmt.name : PyStmt → String
  | .bind n => n
  | .defStmt n _ => n

/-- The builtin names the module signatures mention. -/
def builtinNames : List String :=
  ["str", "bool", "int", "float", "list", "dict", "tuple", "object",
   "Exception", "OSError", "TimeoutError", "ValueError", "TypeError",
   "NameError", "len", "isinstance"]

/-- The top level of src/anysocks/client.py, statement by statement
(lines 3-249): the imports, the module constants, the three exception
classes, the two coroutine function defs with the names their
signatures mention, `_url_to_host`, and the `WebSocketConnection`
class statement. -/
def moduleStmts : List PyStmt :=
  [.bind "itertools", .bind "logging", .bind "random", .bind "ssl",
   .bind "struct", .bind "OrderedDict", .bind "partial",
   .bind "Optional", .bind "Union",
   .bind "anyio",
   .bind "asynccontextmanager",
   .bind "ip_address",
   .bind "ConnectionType", .bind "WSConnection",
   .bind "AcceptConnection", .bind "BytesMessage", .bind "CloseConnection",
   .bind "Ping", .bind "Pong", .bind "RejectConnection", .bind "RejectData",
   .bind "Request", .bind "TextMessage",
   .bind "URL",
   .bind "__all__",
   .bind "logger",
   .bind "CON_TIMEOUT", .bind "MESSAGE_QUEUE_SIZE",
   .bind "MAX_MESSAGE_SIZE", .bind "RECEIVE_BYTES",
   .bind "AnysocksError", .bind "HandshakeError", .bind "TimeoutError",
   .defStmt "open_websocket"
     ["MESSAGE_QUEUE_SIZE", "MAX_MESSAGE_SIZE", "CON_TIMEOUT", "CON_TIMEOUT",
      "str", "Union", "bool", "ssl", "Optional", "list", "Optional", "list",
      "Optional", "int", "Optional", "int", "Optional", "float",
      "Optional", "float", "asynccontextmanager"],
   .defStmt "create_websocket"
     ["MESSAGE_QUEUE_SIZE", "MAX_MESSAGE_SIZE",
      "anyio", "str", "Union", "bool", "ssl", "Optional", "list",
      "Opional", "list", "int", "int", "WebSocketClient"],
   .defStmt "_url_to_host" [],
   .bind "WebSocketConnection"]

/-- A name resolves if it is a module global or a builtin. -/
def resolves (env : List String) (n : String) : Bool :=
  env.contains n || builtinNames.contains n

/-- First name in the list that does not resolve, if any. -/
def firstUnresolved (env : List String) : List String → Option String
  | [] => none
  | n :: rest => if resolves env n then firstUnresolved env rest else some n

/-- Run the module top level: on the first unresolved name of a `def`
statement the import stops with a `NameError` naming it; otherwise the
final global environment is returned. -/
def runModule (env : List String) : List PyStmt → Except (ExcClass × String) (List String)
  | [] => Except.ok env
  | .bind n :: rest => runModule (env ++ [n]) rest
  | .defStmt n used :: rest =>
    match firstUnresolved env used with
    | some bad => Except.error (.nameError, bad)
    | none => runModule (env ++ [n]) rest

/-- The result of `import anysocks.client`. -/
def anysocks_client_import : Except (ExcClass × String) (List String) :=
  runModule [] moduleStmts

/-! ## Background reader task and close (modelled from the spec)

The `WebSocketConnection` class body in the source is a stub (lines
229-249: `__init__` is `pass`, no `_reader_task`, `receive` or `close`
exists), so the reader task and the close operation are modelled from
the spec, sections 4.2 and 4.3. -/

/-- Modelled from the spec: a protocol event delivered by the Protocol
Engine to the reader task (spec section 4.2) — a text/binary message
fragment (final or not), a ping, a pong, or a close. The missing code
is `WebSocketConnection._reader_task`. -/
inductive WsEvent where
  | message (data : List Nat) (fin : Bool)
  | ping (payload : List Nat)
  | pong (payload : List Nat)
  | close (code : Nat)
  deriving DecidableEq, Repr

/-- Modelled from the spec: the tri-state Close State of section 3. -/
inductive CloseSt where
  | opened
  | closeSent
  | closed
  deriving DecidableEq, Repr

/-- Modelled from the spec: a frame emitted on the wire by the
connection (automatic pong answers and close frames). -/
inductive Frame where
  | pongFrame (payload : List Nat)
  | closeFrame (code : Nat)
  deriving DecidableEq, Repr

/-- Modelled from the spec: the state the reader task maintains — the
Pending Message Assembly, the Delivery Queue contents in FIFO order,
the frames sent on the wire in order, the Close State, the recorded
close code, and whether the task has terminated. The missing code is
the `WebSocketConnection` implementation. -/
structure ReaderState where
  assembly : List Nat
  queue : List (List Nat)
  wire : List Frame
  closeState : CloseSt
  closeCode : Option Nat
  terminated : Bool
  deriving DecidableEq, Repr

/-- The reader state at connection construction. -/
def initReader : ReaderState :=
  { assembly := [], queue := [], wire := [], closeState := .opened,
    closeCode := none, terminated := false }

/-- Modelled from the spec: one dispatch step of the Background Reader
Task (spec section 4.2, step 3). A fragment is appended to the
assembly; if the running size exceeds the configured maximum the
connection is aborted with close code 1009 (close frame sent, state
closed, assembly discarded, task terminated); a final fragment pushes
the assembled message onto the Delivery Queue; a ping provokes an
immediate pong; a pong is a no-op; a close records the code, sends the
acknowledgment if not already sent, and terminates the task. After
termination every further trigger is an idempotent no-op. -/
def readerDispatch (maxSize : Nat) (st : ReaderState) (ev : WsEvent) : ReaderState :=
  if st.terminated then st
  else
    match ev with
    | .message data fin =>
      let asm := st.assembly ++ data
      if maxSize < asm.length then
        { st with assembly := [], wire := st.wire ++ [.closeFrame 1009],
                  closeState := .closed, closeCode := some 1009, terminated := true }
      else if fin then
        { st with assembly := [], queue := st.queue ++ [asm] }
      else
        { st with assembly := asm }
    | .ping p => { st with wire := st.wire ++ [.pongFrame p] }
    | .pong _ => st
    | .close code =>
      { st with
          wire := st.wire ++ (if st.closeState = .opened then [.closeFrame code] else []),
          closeState := .closed, closeCode := some code, terminated := true }

/-- Modelled from the spec: the reader task over a sequence of protocol
events, in wire order. -/
def readerRun (maxSize : Nat) (st : ReaderState) (evts : List WsEvent) : ReaderState :=
  List.foldl (readerDispatch maxSize) st evts

/-- The messages completed on the wire, in completion order, starting
from a pending assembly (spec-side description of wire order, for the
ordering claim). -/
def completedMsgs : List Nat → List WsEvent → List (List Nat)
  | _, [] => []
  | asm, .message d true :: rest => (asm ++ d) :: completedMsgs [] rest
  | asm, .message d false :: rest => completedMsgs (asm ++ d) rest
  | asm, _ :: rest => completedMsgs asm rest

/-- The ping payloads of an event sequence, in wire order. -/
def pingPayloads (evts : List WsEvent) : List (List Nat) :=
  evts.filterMap fun e =>
    match e with
    | .ping p => some p
    | _ => none

/-- Whether an event is a message fragment or a ping. -/
def dataOrPing : WsEvent → Bool
  | .message _ _ => true
  | .ping _ => true
  | _ => false

/-- Whether every running assembly size along the event sequence stays
within the configured maximum, starting from a pending assembly size. -/
def sizesOk (maxSize : Nat) : Nat → List WsEvent → Bool
  | _, [] => true
  | asm, .message d fin :: rest =>
    if maxSize < asm + d.length then false
    else sizesOk maxSize (if fin then 0 else asm + d.length) rest
  | asm, _ :: rest => sizesOk maxSize asm rest

/-- Modelled from the spec: the facade state `close` acts on — the
Close State and the frames sent on the wire. -/
structure FacadeState where
  closeState : CloseSt
  wire : List Frame
  deriving DecidableEq, Repr

/-- Modelled from the spec: `WebSocketConnection.close(code, reason)`
(spec section 4.3): if Close State is open it sends a close frame and
waits until the reader observes the peer acknowledgment and the state
reaches closed; if the Close State is no longer open it is a no-op. The
missing code is the `WebSocketConnection.close` implementation. -/
def wsClose (code : Nat) (st : FacadeState) : FacadeState :=
  if st.closeState = .opened then
    { closeState := .closed, wire := st.wire ++ [.closeFrame code] }
  else st

/-- Number of close frames among the frames sent on the wire. -/
def countCloseFrames (w : List Frame) : Nat :=
  (w.filter fun f =>
    match f with
    | .closeFrame _ => true
    | _ => false).length

/-! ## Helper lemmas -/

/-- `create_websocket` performs no network effect on any input: line 198
calls `anyio.connect_tcp` without `await`, so the connect coroutine is
never run. -/
theorem create_websocket_no_network (url : Url) (use_ssl : UseSsl) :
    (create_websocket url use_ssl).2 = [] := by
  unfold create_websocket
  split
  · rfl
  · split <;> rfl

/-- `readerRun` steps through the head event first. -/
theorem readerRun_cons (maxSize : Nat) (st : ReaderState) (e : WsEvent)
    (rest : List WsEvent) :
    readerRun maxSize st (e :: rest) = readerRun maxSize (readerDispatch maxSize st e) rest :=
  rfl

/-- After the reader task has terminated, every further event is a
no-op. -/
theorem readerDispatch_terminated (maxSize : Nat) (st : ReaderState) (ev : WsEvent)
    (h : st.terminated = true) : readerDispatch maxSize st ev = st := by
  unfold readerDispatch
  rw [h]
  rfl

/-- A terminated reader state is frozen for the rest of the event
sequence. -/
theorem readerRun_terminated (maxSize : Nat) (st : ReaderState) (evts : List WsEvent)
    (h : st.terminated = true) : readerRun maxSize st evts = st := by
  induction evts with
  | nil => rfl
  | cons e rest ih =>
    rw [readerRun_cons, readerDispatch_terminated maxSize st e h]
    exact ih

/-- Dispatch of a fragment that overflows the maximum: the abort
transition of spec section 4.2. -/
theorem readerDispatch_overflow (maxSize : Nat) (st : ReaderState) (data : List Nat)
    (fin : Bool) (ht : st.terminated = false)
    (hb : maxSize < (st.assembly ++ data).length) :
    readerDispatch maxSize st (.message data fin)
      = { st with assembly := [], wire := st.wire ++ [.closeFrame 1009],
                  closeState := .closed, closeCode := some 1009, terminated := true } := by
  unfold readerDispatch
  rw [ht]
  simp only [Bool.false_eq_true, if_false]
  rw [if_pos hb]

/-- Dispatch of a final fragment within the maximum: the completed
message is pushed onto the Delivery Queue. -/
theorem readerDispatch_final (maxSize : Nat) (st : ReaderState) (data : List Nat)
    (ht : st.terminated = false)
    (hb : ¬ maxSize < (st.assembly ++ data).length) :
    readerDispatch maxSize st (.message data true)
      = { st with assembly := [], queue := st.queue ++ [st.assembly ++ data] } := by
  unfold readerDispatch
  rw [ht]
  simp only [Bool.false_eq_true, if_false]
  rw [if_neg hb]
  rfl

/-- Dispatch of a non-final fragment within the maximum: the data is
appended to the Pending Message Assembly. -/
theorem readerDispatch_nonfinal (maxSize : Nat) (st : ReaderState) (data : List Nat)
    (ht : st.terminated = false)
    (hb : ¬ maxSize < (st.assembly ++ data).length) :
    readerDispatch maxSize st (.message data false)
      = { st with assembly := st.assembly ++ data } := by
  unfold readerDispatch
  rw [ht]
  simp only [Bool.false_eq_true, if_false]
  rw [if_neg hb]

/-- Dispatch of a ping: an automatic pong is sent, nothing else
changes. -/
theorem readerDispatch_ping (maxSize : Nat) (st : ReaderState) (p : List Nat)
    (ht : st.terminated = false) :
    readerDispatch maxSize st (.ping p)
      = { st with wire := st.wire ++ [.pongFrame p] } := by
  unfold readerDispatch
  rw [ht]
  rfl

/-- One reader step never enqueues a message longer than the configured
maximum. -/
theorem readerDispatch_queue_bound (maxSize : Nat) (st : ReaderState) (ev : WsEvent)
    (h : ∀ m ∈ st.queue, m.length ≤ maxSize) :
    ∀ m ∈ (readerDispatch maxSize st ev).queue, m.length ≤ maxSize := by
  by_cases ht : st.terminated = true
  · rw [readerDispatch_terminated maxSize st ev ht]
    exact h
  · have ht' : st.terminated = false := by simpa using ht
    cases ev with
    | message data fin =>
      by_cases hb : maxSize < (st.assembly ++ data).length
      · rw [readerDispatch_overflow maxSize st data fin ht' hb]
        exact h
      · cases fin with
        | true =>
          rw [readerDispatch_final maxSize st data ht' hb]
          intro m hm
          rcases List.mem_append.mp hm with hq | hq
          · exact h m hq
          · rcases List.mem_singleton.mp hq with rfl
            exact Nat.le_of_not_lt hb
        | false =>
          rw [readerDispatch_nonfinal maxSize st data ht' hb]
          exact h
    | ping p =>
      rw [readerDispatch_ping maxSize st p ht']
      exact h
    | pong p =>
      unfold readerDispatch
      rw [ht']
      exact h
    | close code =>
      unfold readerDispatch
      rw [ht']
      exact h

/-- The whole reader run never enqueues a message longer than the
configured maximum. -/
theorem readerRun_queue_bound (maxSize : Nat) (evts : List WsEvent) :
    ∀ st : ReaderState, (∀ m ∈ st.queue, m.length ≤ maxSize) →
      ∀ m ∈ (readerRun maxSize st evts).queue, m.length ≤ maxSize := by
  induction evts with
  | nil => exact fun st h => h
  | cons e rest ih =>
    intro st h
    rw [readerRun_cons]
    exact ih (readerDispatch maxSize st e) (readerDispatch_queue_bound maxSize st e h)

/-- One-step unfolding of `sizesOk` at a message fragment. -/
theorem sizesOk_message (maxSize asm : Nat) (d : List Nat) (fin : Bool)
    (rest : List WsEvent) :
    sizesOk maxSize asm (.message d fin :: rest)
      = if maxSize < asm + d.length then false
        else sizesOk maxSize (if fin then 0 else asm + d.length) rest := rfl

/-- One-step unfolding of `sizesOk` at a ping. -/
theorem sizesOk_ping (maxSize asm : Nat) (p : List Nat) (rest : List WsEvent) :
    sizesOk maxSize asm (.ping p :: rest) = sizesOk maxSize asm rest := rfl

/-- One-step unfolding of `completedMsgs` at a final fragment. -/
theorem completedMsgs_final (asm d : List Nat) (rest : List WsEvent) :
    completedMsgs asm (.message d true :: rest) = (asm ++ d) :: completedMsgs [] rest := rfl

/-- One-step unfolding of `completedMsgs` at a non-final fragment. -/
theorem completedMsgs_nonfinal (asm d : List Nat) (rest : List WsEvent) :
    completedMsgs asm (.message d false :: rest) = completedMsgs (asm ++ d) rest := rfl

/-- One-step unfolding of `completedMsgs` at a ping. -/
theorem completedMsgs_ping (asm p : List Nat) (rest : List WsEvent) :
    completedMsgs asm (.ping p :: rest) = completedMsgs asm rest := rfl

/-- One-step unfolding of `pingPayloads` at a message fragment. -/
theorem pingPayloads_message (d : List Nat) (fin : Bool) (rest : List WsEvent) :
    pingPayloads (.message d fin :: rest) = pingPayloads rest := rfl

/-- One-step unfolding of `pingPayloads` at a ping. -/
theorem pingPayloads_ping (p : List Nat) (rest : List WsEvent) :
    pingPayloads (.ping p :: rest) = p :: pingPayloads rest := rfl

/-- Reader run over an event sequence of message fragments and pings
whose running sizes stay within the maximum: the Delivery Queue receives
exactly the completed messages in wire order, the wire receives exactly
the automatic pongs in wire order, and the task keeps running with the
Close State unchanged. -/
theorem readerRun_data_ping (maxSize : Nat) (evts : List WsEvent) :
    ∀ st : ReaderState, (∀ e ∈ evts, dataOrPing e = true) →
      sizesOk maxSize st.assembly.length evts = true →
      st.terminated = false →
      (readerRun maxSize st evts).queue = st.queue ++ completedMsgs st.assembly evts ∧
      (readerRun maxSize st evts).wire
        = st.wire ++ (pingPayloads evts).map Frame.pongFrame ∧
      (readerRun maxSize st evts).terminated = false ∧
      (readerRun maxSize st evts).closeState = st.closeState := by
  induction evts with
  | nil =>
    intro st _ _ ht
    exact ⟨by simp [readerRun, completedMsgs], by simp [readerRun, pingPayloads], ht, rfl⟩
  | cons e rest ih =>
    intro st hdp hsz ht
    have hdp_rest : ∀ x ∈ rest, dataOrPing x = true :=
      fun x hx => hdp x (List.mem_cons_of_mem e hx)
    cases e with
    | message data fin =>
      have hno : ¬ maxSize < st.assembly.length + data.length := by
        intro hc
        rw [sizesOk_message, if_pos hc] at hsz
        simp at hsz
      have hno' : ¬ maxSize < (st.assembly ++ data).length := by
        rwa [List.length_append]
      rw [sizesOk_message, if_neg hno] at hsz
      cases fin with
      | false =>
        rw [readerRun_cons, readerDispatch_nonfinal maxSize st data ht hno']
        obtain ⟨q, w, t, c⟩ := ih { st with assembly := st.assembly ++ data } hdp_rest
          (by simpa [List.length_append] using hsz) ht
        refine ⟨?_, ?_, t, c⟩
        · rw [completedMsgs_nonfinal]
          exact q
        · rw [pingPayloads_message]
          exact w
      | true =>
        rw [readerRun_cons, readerDispatch_final maxSize st data ht hno']
        obtain ⟨q, w, t, c⟩ :=
          ih { st with assembly := [], queue := st.queue ++ [st.assembly ++ data] }
            hdp_rest (by simpa using hsz) ht
        refine ⟨?_, ?_, t, c⟩
        · rw [completedMsgs_final, q, List.append_assoc]
          rfl
        · rw [pingPayloads_message]
          exact w
    | ping p =>
      rw [sizesOk_ping] at hsz
      rw [readerRun_cons, readerDispatch_ping maxSize st p ht]
      obtain ⟨q, w, t, c⟩ := ih { st with wire := st.wire ++ [.pongFrame p] } hdp_rest hsz ht
      refine ⟨?_, ?_, t, c⟩
      · rw [completedMsgs_ping]
        exact q
      · rw [pingPayloads_ping, w, List.append_assoc]
        rfl
    | pong p =>
      have := hdp (.pong p) (List.mem_cons_self _ _)
      simp [dataOrPing] at this
    | close code =>
      have := hdp (.close code) (List.mem_cons_self _ _)
      simp [dataOrPing] at this

/-- `_url_to_host` rejects a scheme that is neither ws nor wss. -/
theorem _url_to_host_bad_scheme (url : Url) (s : UseSsl) (h1 : url.scheme ≠ "ws")
    (h2 : url.scheme ≠ "wss") : _url_to_host url s = Except.error .valueError := by
  unfold _url_to_host
  rw [if_pos ⟨h1, h2⟩]

/-- `_url_to_host` rejects every non-None `ssl_context` for a ws URL. -/
theorem _url_to_host_ws_nonnull (url : Url) (s : UseSsl) (hws : url.scheme = "ws")
    (hs : s ≠ UseSsl.none) : _url_to_host url s = Except.error .valueError := by
  cases s with
  | none => exact absurd rfl hs
  | bool b => simp [_url_to_host, hws]
  | sslContext => simp [_url_to_host, hws]
  | other => simp [_url_to_host, hws]

/-- An error from `_url_to_host` is the result of `create_websocket`. -/
theorem create_websocket_error_lift (url : Url) (use_ssl : UseSsl) (e : ExcClass)
    (h : _url_to_host url use_ssl = Except.error e) :
    (create_websocket url use_ssl).1 = Except.error e := by
  unfold create_websocket
  rw [h]

/-- For a wss URL and a `use_ssl` value that is neither None, a bool nor
an SSL context, `create_websocket` raises `TypeError` in the dispatch of
lines 186-193. -/
theorem create_websocket_wss_other (url : Url) (hwss : url.scheme = "wss") :
    (create_websocket url UseSsl.other).1 = Except.error ExcClass.typeError := by
  have hu : _url_to_host url UseSsl.other
      = Except.ok (url.host, url.port, url.path_qs, UseSsl.other) := by
    simp [_url_to_host, hwss]
  unfold create_websocket
  rw [hu]

/-- Every successful `create_websocket` passes a `connect_tcp` coroutine
object as the stream. -/
theorem create_websocket_ok_stream (url : Url) (use_ssl : UseSsl)
    (args : WebSocketConnectionArgs)
    (h : (create_websocket url use_ssl).1 = Except.ok args) :
    ∃ host port tls, args.stream = PyVal.coroutine (.connectTcp host port tls) := by
  unfold create_websocket at h
  cases hu : _url_to_host url use_ssl with
  | error e =>
    rw [hu] at h
    simp at h
  | ok t =>
    obtain ⟨host, port, resource, u2⟩ := t
    rw [hu] at h
    cases u2 with
    | none => simp at h
    | bool b =>
      cases b with
      | true =>
        dsimp only at h
        injection h with h2
        exact ⟨host, port, true, by rw [← h2]; rfl⟩
      | false =>
        dsimp only at h
        injection h with h2
        exact ⟨host, port, false, by rw [← h2]; rfl⟩
    | sslContext =>
      dsimp only at h
      injection h with h2
      exact ⟨host, port, true, by rw [← h2]; rfl⟩
    | other => simp at h

/-! ## Claim theorems -/

/-- Claim C1: evaluating the module top level does not succeed — the def
statement of `create_websocket` evaluates its annotated signature and
hits the undefined name `Opional` (and `WebSocketClient` is likewise
never bound by any top-level statement), so `import anysocks.client`
raises `NameError` before any public operation can be called. -/
theorem c1_import_raises_name_error :
    anysocks_client_import = Except.error (ExcClass.nameError, "Opional") ∧
    (moduleStmts.all fun s => s.name != "Opional") = true ∧
    (moduleStmts.all fun s => s.name != "WebSocketClient") = true :=
  ⟨by rfl, by decide, by decide⟩

/-- Claim C2, evaluated on the code: `use_ssl=False` with a ws URL is
REJECTED with `ValueError` (the claim calls it valid), while
`use_ssl=False` with a wss URL is ACCEPTED and produces a plaintext
connection attempt, `tls = false` (the claim says it is rejected); only
`use_ssl=None` passes for a ws URL. -/
theorem c2_ssl_flag_validation_divergence :
    _url_to_host exampleWs (UseSsl.bool false) = Except.error ExcClass.valueError ∧
    _url_to_host exampleWss (UseSsl.bool false)
      = Except.ok ("example.com", 443, "/", UseSsl.bool false) ∧
    (create_websocket exampleWss (UseSsl.bool false)).1
      = Except.ok { stream := PyVal.coroutine (.connectTcp "example.com" 443 false),
                    host := "example.com", path := "/" } ∧
    _url_to_host exampleWs UseSsl.none
      = Except.ok ("example.com", 80, "/", UseSsl.bool false) :=
  ⟨by rfl, by rfl, by rfl, by rfl⟩

/-- Claim C3 counterexample: a caller body propagating `ValueError`
combined with a close-phase deadline expiry exits with the timeout
exception, not the `ValueError` of the caller — the close attempt replaced
the in-flight exception. -/
theorem c3_counterexample :
    open_websocket_exit (some ExcClass.valueError)
        (PhaseResult.raises ExcClass.builtinTimeoutError)
      = some ExcClass.builtinTimeoutError ∧
    ExcClass.builtinTimeoutError ≠ ExcClass.valueError :=
  ⟨by rfl, by decide⟩

/-- Claim C3 as amended: whenever the close attempt raises, the
exception escaping the `finally` block replaces the in-flight caller
exception — the exit outcome depends only on the close failure; the
exception of the caller reaches the caller exactly when the close attempt
completes without raising. A close-phase deadline expiry escapes as the
builtin `TimeoutError` (the shadowing `except TimeoutError`
clause does not match it). -/
theorem c3_close_failure_always_replaces :
    (∀ e c, open_websocket_exit (some e) (PhaseResult.raises c)
        = closePhase (PhaseResult.raises c)) ∧
    (∀ b, open_websocket_exit b PhaseResult.ok = b) ∧
    closePhase (PhaseResult.raises ExcClass.builtinTimeoutError)
      = some ExcClass.builtinTimeoutError := by
  refine ⟨fun e c => ?_, fun b => rfl, rfl⟩
  by_cases hc : ExcClass.isSubclass c .timeoutError = true <;>
    simp [open_websocket_exit, closePhase, hc]

/-- Claim C4, evaluated on the code: a connect-phase deadline expiry
(`anyio.fail_after` raising the builtin `TimeoutError`) is NOT caught by
`except TimeoutError` (the module class the name resolves to), IS caught
by `except OSError` (the builtin is an `OSError` subclass), and so
surfaces as `HandshakeError`, not as the module `TimeoutError` that
the docstring promises for a connection timeout. -/
theorem c4_connect_timeout_surfaces_handshake_error :
    connectPhase (PhaseResult.raises ExcClass.builtinTimeoutError)
      = Except.error ExcClass.handshakeError ∧
    ExcClass.handshakeError ≠ ExcClass.timeoutError ∧
    ExcClass.isSubclass .builtinTimeoutError .timeoutError = false ∧
    ExcClass.isSubclass .builtinTimeoutError .osError = true ∧
    ExcClass.isSubclass .timeoutError .anysocksError = true :=
  ⟨by rfl, by decide, by rfl, by rfl, by rfl⟩

/-- Claim C5 counterexample: a plaintext (ws) connection on port 443
carries the bare host in the Host header, where the claim demands
`host:443` because 443 is not the default port of the plaintext
scheme. -/
theorem c5_counterexample :
    host_header "example.com" 443 = "example.com" ∧
    host_header_spec "ws" "example.com" 443 = "example.com:443" ∧
    host_header "example.com" 443 ≠ host_header_spec "ws" "example.com" 443 := by
  refine ⟨by rfl, by rfl, by decide⟩

/-- Claim C5 as amended: the Host header carries the bare host exactly
when the port is 80 or 443, irrespective of the scheme, and carries
`host:port` otherwise. -/
theorem c5_bare_host_iff_port_80_or_443 (host : String) (port : Nat) :
    (host_header host port = host ↔ port = 80 ∨ port = 443) ∧
    (¬(port = 80 ∨ port = 443) →
      host_header host port = host ++ ":" ++ toString port) := by
  constructor
  · constructor
    · intro h
      by_contra hc
      unfold host_header at h
      rw [if_neg hc] at h
      have hl := congrArg String.length h
      rw [String.length_append, String.length_append] at hl
      have h1 : (":" : String).length = 1 := rfl
      rw [h1] at hl
      omega
    · intro h
      unfold host_header
      rw [if_pos h]
  · intro h
    unfold host_header
    rw [if_neg h]

/-- Witness for the amended C5 at a concrete non-default port. -/
theorem c5_bare_host_witness : host_header "example.com" 8080 = "example.com:8080" := by
  have h := (c5_bare_host_iff_port_80_or_443 "example.com" 8080).2 (by decide)
  rw [h]
  rfl

/-- Claim C6, evaluated on the code: every successful `create_websocket`
binds `stream` to the unawaited `anyio.connect_tcp` coroutine object and
passes it to the `WebSocketConnection` constructor — it is not a
connected byte stream (awaiting it is what would have produced one), and
no network connect is ever performed. -/
theorem c6_stream_passed_unawaited (url : Url) (use_ssl : UseSsl)
    (args : WebSocketConnectionArgs)
    (h : (create_websocket url use_ssl).1 = Except.ok args) :
    (∃ c, args.stream = PyVal.coroutine c ∧
      awaitVal args.stream = some PyVal.connectedStream) ∧
    args.stream ≠ PyVal.connectedStream ∧
    (create_websocket url use_ssl).2 = [] := by
  obtain ⟨h0, p0, t0, hs⟩ := create_websocket_ok_stream url use_ssl args h
  refine ⟨⟨.connectTcp h0 p0 t0, hs, by rw [hs]; rfl⟩, ?_, create_websocket_no_network url use_ssl⟩
  rw [hs]
  intro hc
  cases hc

/-- Witness for C6 at `create_websocket("wss://example.com/", use_ssl=None)`. -/
theorem c6_stream_witness :
    (∃ c, cwExampleArgs.stream = PyVal.coroutine c ∧
      awaitVal cwExampleArgs.stream = some PyVal.connectedStream) ∧
    cwExampleArgs.stream ≠ PyVal.connectedStream ∧
    (create_websocket exampleWss UseSsl.none).2 = [] :=
  c6_stream_passed_unawaited exampleWss UseSsl.none cwExampleArgs (by rfl)

/-- Claim C7 counterexample: `use_ssl=None` — a value that is neither a
bool nor an SSL context — is accepted for a wss URL: the open operation
succeeds instead of failing with `ValueError` or `TypeError`. -/
theorem c7_counterexample :
    (create_websocket exampleWss UseSsl.none).1 = Except.ok cwExampleArgs ∧
    UseSsl.none ≠ UseSsl.bool true ∧
    UseSsl.none ≠ UseSsl.bool false ∧
    UseSsl.none ≠ UseSsl.sslContext :=
  ⟨by rfl, by decide, by decide, by decide⟩

/-- Claim C7 as amended: for every invalid configuration — a scheme that
is neither ws nor wss, an SSL context supplied for a ws URL, or a
`use_ssl` value other than None that is neither a bool nor an SSL
context — the open operation fails with `ValueError` or `TypeError`
before any network activity. -/
theorem c7_invalid_config_fails_fast_locally (url : Url) (use_ssl : UseSsl)
    (h : invalidConfig url use_ssl) :
    ((create_websocket url use_ssl).1 = Except.error ExcClass.valueError ∨
     (create_websocket url use_ssl).1 = Except.error ExcClass.typeError) ∧
    (create_websocket url use_ssl).2 = [] := by
  refine ⟨?_, create_websocket_no_network url use_ssl⟩
  rcases h with ⟨h1, h2⟩ | ⟨hws, hctx⟩ | hother
  · exact Or.inl (create_websocket_error_lift url use_ssl _
      (_url_to_host_bad_scheme url use_ssl h1 h2))
  · subst hctx
    exact Or.inl (create_websocket_error_lift url _ _
      (_url_to_host_ws_nonnull url _ hws (by decide)))
  · subst hother
    by_cases hws : url.scheme = "ws"
    · exact Or.inl (create_websocket_error_lift url _ _
        (_url_to_host_ws_nonnull url _ hws (by decide)))
    · by_cases hwss : url.scheme = "wss"
      · exact Or.inr (create_websocket_wss_other url hwss)
      · exact Or.inl (create_websocket_error_lift url _ _
          (_url_to_host_bad_scheme url _ hws hwss))

/-- Witness for the amended C7: a non-bool, non-context, non-None value
with a wss URL fails with `TypeError` and no network effect. -/
theorem c7_invalid_config_witness :
    ((create_websocket exampleWss UseSsl.other).1 = Except.error ExcClass.valueError ∨
     (create_websocket exampleWss UseSsl.other).1 = Except.error ExcClass.typeError) ∧
    (create_websocket exampleWss UseSsl.other).2 = [] :=
  c7_invalid_config_fails_fast_locally exampleWss UseSsl.other (Or.inr (Or.inr rfl))

/-- Claim C8 (reader task modelled from the spec): when a fragment makes
the accumulated size exceed the configured maximum, the connection is
aborted with close code 1009 — a close frame with code 1009 is sent, the
Close State becomes closed, the pending assembly is discarded, the
reader terminates (so the remaining events change nothing) — and no
message longer than the maximum is ever in the Delivery Queue, so the
oversized message is never returned by receive. -/
theorem c8_oversize_aborts_with_1009 (maxSize : Nat) (p rest : List WsEvent)
    (data : List Nat) (fin : Bool)
    (ht : (readerRun maxSize initReader p).terminated = false)
    (hov : maxSize < ((readerRun maxSize initReader p).assembly ++ data).length) :
    readerRun maxSize initReader (p ++ WsEvent.message data fin :: rest)
      = { readerRun maxSize initReader p with
          assembly := [],
          wire := (readerRun maxSize initReader p).wire ++ [Frame.closeFrame 1009],
          closeState := .closed, closeCode := some 1009, terminated := true } ∧
    ∀ m ∈ (readerRun maxSize initReader (p ++ WsEvent.message data fin :: rest)).queue,
      m.length ≤ maxSize := by
  have hsplit : readerRun maxSize initReader (p ++ WsEvent.message data fin :: rest)
      = readerRun maxSize
          (readerDispatch maxSize (readerRun maxSize initReader p) (.message data fin)) rest := by
    unfold readerRun
    rw [List.foldl_append]
    rfl
  rw [hsplit, readerDispatch_overflow maxSize (readerRun maxSize initReader p) data fin ht hov,
      readerRun_terminated maxSize _ rest rfl]
  refine ⟨rfl, ?_⟩
  exact readerRun_queue_bound maxSize p initReader
    (fun m hm => absurd hm (List.not_mem_nil m))

/-- Witness for C8: maximum size 2 and a single 3-byte fragment. -/
theorem c8_oversize_witness :
    readerRun 2 initReader [WsEvent.message [0, 0, 0] true]
      = { assembly := [], queue := [], wire := [Frame.closeFrame 1009],
          closeState := .closed, closeCode := some 1009, terminated := true } ∧
    ∀ m ∈ (readerRun 2 initReader [WsEvent.message [0, 0, 0] true]).queue,
      m.length ≤ 2 := by
  have h := c8_oversize_aborts_with_1009 2 [] [] [0, 0, 0] true (by rfl) (by decide)
  exact h

/-- Claim C9 (reader task modelled from the spec): over any wire
sequence of message fragments and pings whose sizes stay within the
maximum, the Delivery Queue ends up holding exactly the completed
messages in wire completion order (FIFO, so successive receive calls
return them in that order), pings never enter the Delivery Queue, and
every ping provokes an automatic matching pong — the wire output is
exactly the pongs for the pings, in order. -/
theorem c9_fifo_order_and_automatic_pongs (maxSize : Nat) (evts : List WsEvent)
    (hdp : ∀ e ∈ evts, dataOrPing e = true)
    (hsz : sizesOk maxSize 0 evts = true) :
    (readerRun maxSize initReader evts).queue = completedMsgs [] evts ∧
    (readerRun maxSize initReader evts).wire
      = (pingPayloads evts).map Frame.pongFrame ∧
    (readerRun maxSize initReader evts).closeState = CloseSt.opened ∧
    (readerRun maxSize initReader evts).terminated = false := by
  obtain ⟨q, w, t, c⟩ := readerRun_data_ping maxSize evts initReader hdp hsz rfl
  refine ⟨?_, ?_, c, t⟩
  · rw [q]
    rfl
  · rw [w]
    rfl

/-- Witness for C9: two messages interleaved with a ping. -/
theorem c9_fifo_witness :
    (readerRun 10 initReader
        [WsEvent.message [1] true, WsEvent.ping [7], WsEvent.message [2, 3] true]).queue
      = [[1], [2, 3]] ∧
    (readerRun 10 initReader
        [WsEvent.message [1] true, WsEvent.ping [7], WsEvent.message [2, 3] true]).wire
      = [Frame.pongFrame [7]] := by
  have h := c9_fifo_order_and_automatic_pongs 10
    [WsEvent.message [1] true, WsEvent.ping [7], WsEvent.message [2, 3] true]
    (by decide) (by decide)
  exact ⟨by rw [h.1]; decide, by rw [h.2.1]; decide⟩

/-- Claim C10 (close modelled from the spec): calling close twice from
an open connection emits exactly one close frame on the wire, the first
call leaves the Close State no longer open, and the second call is a
no-op — it changes neither the connection state nor the wire output. -/
theorem c10_close_idempotent (c1 c2 : Nat) (st : FacadeState)
    (h : st.closeState = CloseSt.opened) :
    wsClose c2 (wsClose c1 st) = wsClose c1 st ∧
    countCloseFrames (wsClose c2 (wsClose c1 st)).wire = countCloseFrames st.wire + 1 ∧
    (wsClose c1 st).closeState ≠ CloseSt.opened := by
  have h1 : wsClose c1 st
      = { closeState := .closed, wire := st.wire ++ [Frame.closeFrame c1] } := by
    unfold wsClose
    rw [if_pos h]
  have h2 : wsClose c2 (wsClose c1 st) = wsClose c1 st := by
    rw [h1]
    unfold wsClose
    simp
  refine ⟨h2, ?_, by rw [h1]; simp⟩
  rw [h2, h1]
  unfold countCloseFrames
  rw [List.filter_append, List.length_append]
  rfl

/-- Witness for C10: closing an open connection twice with code 1000. -/
theorem c10_close_witness :
    wsClose 1000 (wsClose 1000 ⟨CloseSt.opened, []⟩) = wsClose 1000 ⟨CloseSt.opened, []⟩ ∧
    countCloseFrames (wsClose 1000 (wsClose 1000 ⟨CloseSt.opened, []⟩)).wire
      = countCloseFrames (FacadeState.mk CloseSt.opened []).wire + 1 ∧
    (wsClose 1000 ⟨CloseSt.opened, []⟩).closeState ≠ CloseSt.opened :=
  c10_close_idempotent 1000 1000 ⟨CloseSt.opened, []⟩ rfl
